import Mathlib

/-!
Shallow embedding of the `importproxy` Python library
(src/importproxy/__init__.py) and proofs of the specification claims.

Python exceptions are embedded as the `Exn` type; a resolver "signals
not found" by raising `AttributeError`, so resolvers are functions
`String → String → Except Exn Val`.  Python values are embedded as the
inductive `Val`; the only callables the library itself constructs are
the zero-argument closures returned for the `__dir__` sentinel, each of
which returns a fixed list of key strings, so they are embedded as
`Val.vclosure` carrying that list.
-/

namespace ImportProxy

/-- Embedding of the Python exception classes that the library's control
flow distinguishes: `AttributeError` is the resolver "not found" signal,
`ImportError` is caught by the submodule recovery path, and every other
exception class (`ValueError`, `TypeError`, ...) is a "fault" the core
never catches. -/
inductive Exn where
  | attributeError (msg : String)
  | importError (msg : String)
  | valueError (msg : String)
  | typeError (msg : String)
deriving DecidableEq, Repr

/-- `True` exactly on the `AttributeError` class (the "not found" signal). -/
def Exn.isAttributeError : Exn → Bool
  | .attributeError _ => true
  | _ => false

/-- Embedding of the Python values flowing through the library: `None`,
ints, strings, bools, lists, the zero-argument key-listing closures
produced for the `__dir__` sentinel (`vclosure ks` is
`lambda: list(keys)` with `list(keys) = ks`), and proxy-module objects
(observable state: `__name__` and the optional `__path__`). -/
inductive Val where
  | vnone
  | vint (n : Int)
  | vstr (s : String)
  | vbool (b : Bool)
  | vlist (l : List Val)
  | vclosure (ks : List String)
  | vmodule (name : String) (path : Option (List Val))

/-- `v is None` in Python: the value is the `None` singleton. -/
def Val.isNone : Val → Bool
  | .vnone => true
  | _ => false

/-- A resolver: `(module_name, attr_name) ↦` value, `AttributeError`
("not found") or any other exception. -/
def Resolver : Type := String → String → Except Exn Val

/-- `table[key]` on a string-keyed map embedded as an association list
with unique keys: the first binding for `key`, if any. -/
def lookupKey {α : Type} : List (String × α) → String → Option α
  | [], _ => none
  | p :: rest, key => if p.1 = key then some p.2 else lookupKey rest key

/-- The message of the `AttributeError` the library raises itself:
`f"module '{m}' has no attribute '{a}'"`. -/
def noAttrMsg (m a : String) : String :=
  "module '" ++ m ++ "' has no attribute '" ++ a ++ "'"

/-- Embedding of `dict_resolver` (src lines 176-196): the inner
`resolver` closure over `mapping`, with the dict embedded as an
association list (unique keys, insertion order). -/
def dict_resolver (mapping : List (String × Val)) : Resolver :=
  fun module_name attr_name =>
    if attr_name = "__dir__" then
      .ok (.vclosure (mapping.map (·.1)))
    else
      match lookupKey mapping attr_name with
      | some v => .ok v
      | none => .error (.attributeError (noAttrMsg module_name attr_name))

/-- Embedding of `synthetic_module` (src lines 224-249): the inner
`resolver` closure over `attrs` and `is_package`. -/
def synthetic_module (attrs : List (String × Val)) (is_package : Bool) : Resolver :=
  fun module_name attr_name =>
    if attr_name = "__path__" then
      .ok (if is_package then .vlist [] else .vnone)
    else if attr_name = "__dir__" then
      .ok (.vclosure (attrs.map (·.1)))
    else
      match lookupKey attrs attr_name with
      | some v => .ok v
      | none => .error (.attributeError (noAttrMsg module_name attr_name))

/-- The `for r in resolvers` loop inside `chain_resolvers`
(src lines 262-268): try each resolver; an `AttributeError` moves to the
next one, any other exception propagates, and exhausting the list raises
the library's own `AttributeError`. -/
def chainTry : List Resolver → String → String → Except Exn Val
  | [], module_name, attr_name =>
      .error (.attributeError (noAttrMsg module_name attr_name))
  | r :: rest, module_name, attr_name =>
      match r module_name attr_name with
      | .ok v => .ok v
      | .error (.attributeError _) => chainTry rest module_name attr_name
      | .error e => .error e

/-- Embedding of `chain_resolvers` (src lines 252-270). -/
def chain_resolvers (resolvers : List Resolver) : Resolver :=
  fun module_name attr_name => chainTry resolvers module_name attr_name

/-- The characters strictly before the last `'.'` of the list, or
`none` when no `'.'` occurs. -/
def beforeLastDot : List Char → Option (List Char)
  | [] => none
  | c :: rest =>
      match beforeLastDot rest with
      | some tail => some (c :: tail)
      | none => if c = '.' then some [] else none

/-- `name.rsplit(".", 1)[0] if "." in name else None`
(src line 20, the `__package__` computation). -/
def pkgName (name : String) : Option String :=
  (beforeLastDot name.toList).map fun cs => String.mk cs

/-- Observable state of a `ProxyModule` instance: `__name__`,
`__package__`, and `__path__` (`none` when the attribute was never set).
The bound resolver is passed explicitly to the operations below. -/
structure ProxyModule where
  name : String
  package : Option String
  path : Option (List Val)

/-- `path_info if isinstance(path_info, list) else []` (src line 27). -/
def asPyList : Val → List Val
  | .vlist l => l
  | _ => []

/-- Embedding of `ProxyModule.__init__` (src lines 17-29), instrumented
with the list of attribute names the constructor queries on the
resolver.  The constructor performs exactly one resolver call, the
`__path__` probe: `AttributeError` leaves `__path__` unset, a `None`
result also leaves it unset (`path_info is not None` fails), any other
result sets it (coerced to `[]` when not a list), and any other
exception escapes the `try` block and propagates. -/
def mkProxyModuleTraced (name : String) (resolver : Resolver) :
    Except Exn ProxyModule × List String :=
  (match resolver name "__path__" with
   | .ok path_info =>
       if path_info.isNone then .ok ⟨name, pkgName name, none⟩
       else .ok ⟨name, pkgName name, some (asPyList path_info)⟩
   | .error (.attributeError _) => .ok ⟨name, pkgName name, none⟩
   | .error e => .error e,
   ["__path__"])

/-- `ProxyModule.__init__`: the constructed module (or the escaping
exception). -/
def mkProxyModule (name : String) (resolver : Resolver) : Except Exn ProxyModule :=
  (mkProxyModuleTraced name resolver).1

/-- The attribute names `ProxyModule.__init__` queries on its resolver,
in order. -/
def initQueries (name : String) (resolver : Resolver) : List String :=
  (mkProxyModuleTraced name resolver).2

/-- A `ProxyModule` as a value (what `__import__` returns to the
caller). -/
def ProxyModule.toVal (m : ProxyModule) : Val :=
  .vmodule m.name m.path

/-- Observable state of the `ModuleSpec` built by `ProxyFinder.find_spec`
(src lines 93-104): name, origin, and `submodule_search_locations`
(default `None` for a `ModuleSpec(fullname, loader)` with no
`is_package` hint; the attached loader is the bound resolver, passed
separately). -/
structure ModuleSpec where
  name : String
  origin : String
  submodule_search_locations : Option (List Val)

/-- The registered-name branch of `ProxyFinder.find_spec`
(src lines 89-106): build the spec, probe the resolver for `__path__`
to fill `submodule_search_locations` (`AttributeError` sets it to
`None`, a non-list truthy value is coerced to `[]`, `None` leaves the
default), and propagate any other exception. -/
def findSpecFor (fullname : String) (resolver : Resolver) : Except Exn ModuleSpec :=
  match resolver fullname "__path__" with
  | .ok path_info =>
      if path_info.isNone then .ok ⟨fullname, "proxy", none⟩
      else .ok ⟨fullname, "proxy", some (asPyList path_info)⟩
  | .error (.attributeError _) => .ok ⟨fullname, "proxy", none⟩
  | .error e => .error e

/-- The registry `_registry` (src line 112): a string-keyed map embedded
as an association list with unique keys. -/
def Registry : Type := List (String × Resolver)

/-- Embedding of `ProxyFinder.find_spec` (src lines 83-108): decline
(`None`) when the name is not registered, otherwise build the spec for
the registered resolver. -/
def find_spec (reg : Registry) (fullname : String) : Except Exn (Option ModuleSpec) :=
  match lookupKey reg fullname with
  | some resolver => (findSpecFor fullname resolver).map some
  | none => .ok none

/-- `__import__(fullname, fromlist=[""])` for a name registered with
`resolver`, with a cold module cache: the import machinery calls
`ProxyFinder.find_spec` (which probes the resolver for `__path__`),
then `ProxyLoader.create_module` constructs the `ProxyModule`
(`ProxyLoader.exec_module` is a no-op, src lines 73-77), and the new
module is returned.  Either `__path__` probe may raise a non-
`AttributeError` exception, which propagates. -/
def proxyImport (fullname : String) (resolver : Resolver) : Except Exn Val :=
  match findSpecFor fullname resolver with
  | .error e => .error e
  | .ok _spec =>
      match mkProxyModule fullname resolver with
      | .ok m => .ok m.toVal
      | .error e => .error e

/-- Embedding of `ProxyModule.__getattr__` (src lines 31-45) for a
module named `modName` bound to `resolver`, against registry `reg`:
return the resolver's value on a hit; on `AttributeError` try the
submodule recovery path (`modName ++ "." ++ name` registered → run
the loading of that child, swallowing only `ImportError`); otherwise raise
the library's `AttributeError` naming module and attribute.  Any other
exception from the resolver propagates untouched. -/
def getattrOn (reg : Registry) (modName : String) (resolver : Resolver)
    (name : String) : Except Exn Val :=
  match resolver modName name with
  | .ok v => .ok v
  | .error (.attributeError _) =>
      let submodule_name := modName ++ "." ++ name
      (match lookupKey reg submodule_name with
       | some subResolver =>
           (match proxyImport submodule_name subResolver with
            | .ok submodule => .ok submodule
            | .error (.importError _) =>
                .error (.attributeError (noAttrMsg modName name))
            | .error e => .error e)
       | none => .error (.attributeError (noAttrMsg modName name)))
  | .error e => .error e

/-- The module-level mutable state (src lines 111-113 plus
`sys.modules`): the registry, the module cache, and whether the finder
has been inserted into `sys.meta_path`. -/
structure IPState where
  registry : Registry
  sysModules : List (String × Val)
  finderInstalled : Bool

/-- `key in table` / `del table[key]` on a unique-key association list:
removing every pair with that key. -/
def eraseKey {α : Type} : List (String × α) → String → List (String × α)
  | [], _ => []
  | p :: rest, key =>
      if p.1 = key then eraseKey rest key else p :: eraseKey rest key

/-- Embedding of `register` (src lines 124-141): ensure the finder is
installed, store/replace the resolver under `module_name`, and evict any
cached module of that name from `sys.modules`. -/
def register (s : IPState) (module_name : String) (resolver : Resolver) : IPState :=
  { registry := (module_name, resolver) :: eraseKey s.registry module_name
    sysModules := eraseKey s.sysModules module_name
    finderInstalled := true }

/-- Embedding of `unregister` (src lines 144-154): drop the registry
entry if present, and drop the `sys.modules` entry if present — the
second deletion is not guarded by registry membership. -/
def unregister (s : IPState) (module_name : String) : IPState :=
  { registry := eraseKey s.registry module_name
    sysModules := eraseKey s.sysModules module_name
    finderInstalled := s.finderInstalled }

/-- `True` exactly when the outcome is the "not found" signal (a raised
`AttributeError`). -/
def missed (r : Except Exn Val) : Bool :=
  match r with
  | .error (.attributeError _) => true
  | _ => false

/-! ### Helper lemmas -/

/-- Unfolding equation for `mkProxyModule`. -/
theorem mkProxyModule_eq (name : String) (resolver : Resolver) :
    mkProxyModule name resolver =
      (match resolver name "__path__" with
       | .ok path_info =>
           if path_info.isNone then Except.ok ⟨name, pkgName name, none⟩
           else .ok ⟨name, pkgName name, some (asPyList path_info)⟩
       | .error (.attributeError _) => .ok ⟨name, pkgName name, none⟩
       | .error e => .error e) := rfl

/-- A miss is exactly a raised `AttributeError`. -/
theorem missed_iff (r : Except Exn Val) :
    missed r = true ↔ ∃ msg, r = .error (.attributeError msg) := by
  cases r with
  | ok v => simp [missed]
  | error e => cases e <;> simp [missed]

/-- Deleting a key makes it unresolvable. -/
theorem lookupKey_eraseKey {α : Type} (l : List (String × α)) (k : String) :
    lookupKey (eraseKey l k) k = none := by
  induction l with
  | nil => rfl
  | cons p rest ih =>
      by_cases h : p.1 = k
      · simpa [eraseKey, h] using ih
      · simpa [eraseKey, h, lookupKey] using ih

/-- Deleting one key leaves every other key's binding unchanged. -/
theorem lookupKey_eraseKey_ne {α : Type} (l : List (String × α)) (k k' : String)
    (h : k' ≠ k) : lookupKey (eraseKey l k) k' = lookupKey l k' := by
  induction l with
  | nil => rfl
  | cons p rest ih =>
      by_cases hp : p.1 = k
      · simpa [eraseKey, hp, lookupKey, Ne.symm h] using ih
      · by_cases hq : p.1 = k'
        · simp [eraseKey, hp, lookupKey, hq, h]
        · simpa [eraseKey, hp, lookupKey, hq] using ih

/-- Deleting an absent key is a no-op. -/
theorem eraseKey_of_lookupKey_none {α : Type} (l : List (String × α)) (k : String)
    (h : lookupKey l k = none) : eraseKey l k = l := by
  induction l with
  | nil => rfl
  | cons p rest ih =>
      by_cases hp : p.1 = k
      · simp [lookupKey, hp] at h
      · simp only [lookupKey, hp, if_false, if_neg] at h
        simp only [eraseKey, hp, if_neg, if_false]
        rw [ih h]

/-- A raised `AttributeError` from the head resolver moves the chain on
to the rest. -/
theorem chainTry_cons_miss (r : Resolver) (rs : List Resolver) (m a msg : String)
    (h : r m a = .error (.attributeError msg)) :
    chainTry (r :: rs) m a = chainTry rs m a := by
  simp [chainTry, h]

/-- A prefix of missing resolvers is skipped by the chain loop. -/
theorem chainTry_append_misses (pre rs : List Resolver) (m a : String)
    (h : ∀ r' ∈ pre, missed (r' m a) = true) :
    chainTry (pre ++ rs) m a = chainTry rs m a := by
  induction pre with
  | nil => rfl
  | cons r pre ih =>
      obtain ⟨msg, hmsg⟩ := (missed_iff _).1 (h r (by simp))
      rw [List.cons_append, chainTry_cons_miss r _ m a msg hmsg]
      exact ih fun r' hr' => h r' (by simp [hr'])

/-- A chain returns a value only by way of a first-hitting resolver:
some decomposition into an all-missing prefix and a hitting resolver
produces that very value. -/
theorem chainTry_ok_decomp (m a : String) :
    ∀ (rs : List Resolver) (v : Val), chainTry rs m a = .ok v →
      ∃ pre r post, rs = pre ++ r :: post
        ∧ (∀ r' ∈ pre, missed (r' m a) = true) ∧ r m a = .ok v := by
  intro rs
  induction rs with
  | nil => intro v h; simp [chainTry] at h
  | cons r rest ih =>
      intro v h
      cases hr : r m a with
      | ok w =>
          have hw : w = v := by simpa [chainTry, hr] using h
          exact ⟨[], r, rest, rfl, by simp, by rw [hr, hw]⟩
      | error e =>
          cases e with
          | attributeError msg =>
              have h' : chainTry rest m a = .ok v := by simpa [chainTry, hr] using h
              obtain ⟨pre, r', post, hdec, hmiss, hok⟩ := ih v h'
              refine ⟨r :: pre, r', post, by rw [List.cons_append, hdec], ?_, hok⟩
              intro r'' hr''
              rcases List.mem_cons.1 hr'' with hh | hh
              · subst hh; simp [missed, hr]
              · exact hmiss r'' hh
          | importError msg => simp [chainTry, hr] at h
          | valueError msg => simp [chainTry, hr] at h
          | typeError msg => simp [chainTry, hr] at h

/-- A chain signals "not found" exactly when every member misses. -/
theorem chainTry_missed_iff (m a : String) :
    ∀ rs : List Resolver,
      missed (chainTry rs m a) = true ↔ ∀ r ∈ rs, missed (r m a) = true := by
  intro rs
  induction rs with
  | nil => simp [chainTry, missed]
  | cons r rest ih =>
      cases hr : r m a with
      | ok w => simp [chainTry, hr, missed]
      | error e =>
          cases e with
          | attributeError msg =>
              rw [chainTry_cons_miss r rest m a msg hr]
              constructor
              · intro h r' hr'
                rcases List.mem_cons.1 hr' with hh | hh
                · subst hh; simp [missed, hr]
                · exact ih.1 h r' hh
              · intro h
                exact ih.2 fun r' hr' => h r' (List.mem_cons_of_mem _ hr')
          | importError msg => simp [chainTry, hr, missed]
          | valueError msg => simp [chainTry, hr, missed]
          | typeError msg => simp [chainTry, hr, missed]

/-- Importing a registered name returns the freshly constructed proxy
module, and fails exactly when its construction fails. -/
theorem proxyImport_eq (fullname : String) (resolver : Resolver) :
    proxyImport fullname resolver
      = (mkProxyModule fullname resolver).map ProxyModule.toVal := by
  cases hp : resolver fullname "__path__" with
  | ok v =>
      by_cases hv : v.isNone = true <;>
        simp [proxyImport, findSpecFor, mkProxyModule_eq, hp, hv, Except.map]
  | error e =>
      cases e <;> simp [proxyImport, findSpecFor, mkProxyModule_eq, hp, Except.map]

/-! ### Claim theorems -/

/-- C1: for every registered pair (name, resolver) and every attribute in
the resolver's domain (it returns a value), attribute access on the
proxy module returns exactly the value the resolver returns — the very
same value, unwrapped. -/
theorem C1_getattr_returns_exact_resolver_value
    (reg : Registry) (modName : String) (resolver : Resolver)
    (attr : String) (v : Val) (h : resolver modName attr = .ok v) :
    getattrOn reg modName resolver attr = .ok v := by
  simp [getattrOn, h]

/-- Witness for C1 at a concrete mapping resolver. -/
theorem C1_witness :
    getattrOn [("m", dict_resolver [("x", .vint 10)])] "m"
      (dict_resolver [("x", .vint 10)]) "x" = .ok (.vint 10) :=
  C1_getattr_returns_exact_resolver_value _ _ _ _ _ rfl

/-- C2: the chained resolver returns the first hit in list order even
when a later resolver would also hit; it returns a value only via a
first-hitting decomposition (every earlier resolver missed); and it
signals "not found" exactly when every resolver in the list misses. -/
theorem C2_chain_priority_order (m a : String) :
    (∀ (pre post : List Resolver) (r : Resolver) (v : Val),
        (∀ r' ∈ pre, missed (r' m a) = true) → r m a = .ok v →
        chain_resolvers (pre ++ r :: post) m a = .ok v)
    ∧ (∀ (rs : List Resolver) (v : Val),
        chain_resolvers rs m a = .ok v →
        ∃ pre r post, rs = pre ++ r :: post
          ∧ (∀ r' ∈ pre, missed (r' m a) = true) ∧ r m a = .ok v)
    ∧ (∀ rs : List Resolver,
        missed (chain_resolvers rs m a) = true
          ↔ ∀ r ∈ rs, missed (r m a) = true) := by
  refine ⟨?_, fun rs v h => chainTry_ok_decomp m a rs v h,
    fun rs => chainTry_missed_iff m a rs⟩
  intro pre post r v hpre hr
  show chainTry (pre ++ r :: post) m a = .ok v
  rw [chainTry_append_misses pre _ m a hpre]
  simp [chainTry, hr]

/-- Witness for C2: the spec's concrete scenario
`chain([mapping({"a":1}), mapping({"a":2,"b":3})])`. -/
theorem C2_witness :
    chain_resolvers [dict_resolver [("a", .vint 1)],
        dict_resolver [("a", .vint 2), ("b", .vint 3)]] "m" "a" = .ok (.vint 1)
    ∧ chain_resolvers [dict_resolver [("a", .vint 1)],
        dict_resolver [("a", .vint 2), ("b", .vint 3)]] "m" "b" = .ok (.vint 3)
    ∧ missed (chain_resolvers [dict_resolver [("a", .vint 1)],
        dict_resolver [("a", .vint 2), ("b", .vint 3)]] "m" "c") = true := by
  refine ⟨?_, ?_, ?_⟩
  · exact (C2_chain_priority_order "m" "a").1 []
      [dict_resolver [("a", .vint 2), ("b", .vint 3)]]
      (dict_resolver [("a", .vint 1)]) (.vint 1) (by simp) rfl
  · exact (C2_chain_priority_order "m" "b").1 [dict_resolver [("a", .vint 1)]] []
      (dict_resolver [("a", .vint 2), ("b", .vint 3)]) (.vint 3) (by decide) rfl
  · exact ((C2_chain_priority_order "m" "c").2.2 _).2 (by decide)

/-- C3: any condition other than the "not found" signal raised by a
resolver propagates unmodified both through attribute access on the
proxy module and through the chaining combinator — never caught or
reinterpreted as "not found". -/
theorem C3_nonmiss_fault_propagates (m a : String) (e : Exn)
    (he : e.isAttributeError = false) :
    (∀ (reg : Registry) (resolver : Resolver), resolver m a = .error e →
        getattrOn reg m resolver a = .error e)
    ∧ (∀ (pre post : List Resolver) (r : Resolver),
        (∀ r' ∈ pre, missed (r' m a) = true) → r m a = .error e →
        chain_resolvers (pre ++ r :: post) m a = .error e) := by
  constructor
  · intro reg resolver h
    cases e with
    | attributeError msg => simp [Exn.isAttributeError] at he
    | importError msg => simp [getattrOn, h]
    | valueError msg => simp [getattrOn, h]
    | typeError msg => simp [getattrOn, h]
  · intro pre post r hpre hr
    show chainTry (pre ++ r :: post) m a = .error e
    rw [chainTry_append_misses pre _ m a hpre]
    cases e with
    | attributeError msg => simp [Exn.isAttributeError] at he
    | importError msg => simp [chainTry, hr]
    | valueError msg => simp [chainTry, hr]
    | typeError msg => simp [chainTry, hr]

/-- Witness for C3: the tests' scenario of a resolver raising
`ValueError("intentional crash")` for attribute `crash`. -/
theorem C3_witness :
    getattrOn [] "buggy"
      (fun _ attr =>
        if attr = "crash" then .error (.valueError "intentional crash")
        else .error (.attributeError "not found")) "crash"
      = .error (.valueError "intentional crash")
    ∧ chain_resolvers
        [fun _ attr =>
          if attr = "crash" then .error (.valueError "intentional crash")
          else .error (.attributeError "not found")] "buggy" "crash"
      = .error (.valueError "intentional crash") := by
  constructor
  · exact (C3_nonmiss_fault_propagates "buggy" "crash"
      (.valueError "intentional crash") rfl).1 [] _ rfl
  · exact (C3_nonmiss_fault_propagates "buggy" "crash"
      (.valueError "intentional crash") rfl).2 [] [] _ (by simp) rfl

/-- C4: when the bound resolver misses and no dotted child is
registered, attribute access raises an `AttributeError` whose message
names both the container and the attribute; concretely, with
`{"x": 10}` registered under `"m"`, accessing `x` yields `10` and
accessing `y` raises "module 'm' has no attribute 'y'". -/
theorem C4_total_miss_no_such_attribute :
    (∀ (reg : Registry) (modName : String) (resolver : Resolver) (attr msg : String),
        resolver modName attr = .error (.attributeError msg) →
        lookupKey reg (modName ++ "." ++ attr) = none →
        getattrOn reg modName resolver attr
          = .error (.attributeError (noAttrMsg modName attr)))
    ∧ noAttrMsg "m" "y" = "module 'm' has no attribute 'y'"
    ∧ getattrOn [("m", dict_resolver [("x", .vint 10)])] "m"
        (dict_resolver [("x", .vint 10)]) "x" = .ok (.vint 10)
    ∧ getattrOn [("m", dict_resolver [("x", .vint 10)])] "m"
        (dict_resolver [("x", .vint 10)]) "y"
        = .error (.attributeError "module 'm' has no attribute 'y'") := by
  refine ⟨?_, rfl, rfl, rfl⟩
  intro reg modName resolver attr msg h hsub
  simp [getattrOn, h, hsub]

/-- Witness for C4's general clause at a concrete total miss. -/
theorem C4_witness :
    getattrOn [] "m" (dict_resolver [("x", .vint 10)]) "y"
      = .error (.attributeError (noAttrMsg "m" "y")) :=
  C4_total_miss_no_such_attribute.1 [] "m" (dict_resolver [("x", .vint 10)]) "y"
    (noAttrMsg "m" "y") rfl rfl

/-- C5: when the bound resolver misses on an attribute whose dotted
child name is registered, attribute access imports that child container
and returns the resulting child namespace as the attribute value;
concretely, registering `pkg` and `pkg.util` makes `pkg.util` reachable
as an attribute path. -/
theorem C5_submodule_recovery :
    (∀ (reg : Registry) (modName : String) (resolver subResolver : Resolver)
        (attr msg : String) (child : ProxyModule),
        resolver modName attr = .error (.attributeError msg) →
        lookupKey reg (modName ++ "." ++ attr) = some subResolver →
        mkProxyModule (modName ++ "." ++ attr) subResolver = .ok child →
        getattrOn reg modName resolver attr = .ok child.toVal)
    ∧ getattrOn
        [("pkg", synthetic_module [] true),
         ("pkg.util", synthetic_module [("x", .vint 1)] false)]
        "pkg" (synthetic_module [] true) "util"
        = .ok (.vmodule "pkg.util" none) := by
  refine ⟨?_, rfl⟩
  intro reg modName resolver subResolver attr msg child h hsub hinit
  have himp : proxyImport (modName ++ "." ++ attr) subResolver = .ok child.toVal := by
    rw [proxyImport_eq, hinit]; rfl
  simp [getattrOn, h, hsub, himp]

/-- Witness for C5's general clause at the `pkg`/`pkg.util` scenario. -/
theorem C5_witness :
    getattrOn [("pkg", synthetic_module [] true),
        ("pkg.util", synthetic_module [] false)]
      "pkg" (synthetic_module [] true) "util"
      = .ok (ProxyModule.mk "pkg.util" (some "pkg") none).toVal :=
  C5_submodule_recovery.1 _ "pkg" _ (synthetic_module [] false) "util"
    (noAttrMsg "pkg" "util") ⟨"pkg.util", some "pkg", none⟩ rfl rfl rfl

/-- C6: construction of a proxy module queries its resolver exactly once
for `__path__`; a "not found" signal leaves the namespace plain (no
search locations), and a non-`None` result records search locations:
the returned list itself when list-shaped, the empty list otherwise. -/
theorem C6_init_single_path_probe (name : String) (resolver : Resolver) :
    initQueries name resolver = ["__path__"]
    ∧ (∀ msg, resolver name "__path__" = .error (.attributeError msg) →
        mkProxyModule name resolver = .ok ⟨name, pkgName name, none⟩)
    ∧ (∀ v, resolver name "__path__" = .ok v → v.isNone = false →
        mkProxyModule name resolver = .ok ⟨name, pkgName name, some (asPyList v)⟩)
    ∧ (∀ l, asPyList (.vlist l) = l)
    ∧ (∀ v, (∀ l, v ≠ .vlist l) → asPyList v = []) := by
  refine ⟨rfl, ?_, ?_, fun l => rfl, ?_⟩
  · intro msg h
    rw [mkProxyModule_eq, h]
  · intro v h hv
    rw [mkProxyModule_eq, h]
    simp [hv]
  · intro v hv
    cases v <;> first | rfl | exact absurd rfl (hv _)

/-- Witness for C6 at concrete package and non-package resolvers. -/
theorem C6_witness :
    initQueries "m" (synthetic_module [] true) = ["__path__"]
    ∧ mkProxyModule "m" (synthetic_module [] true)
        = .ok ⟨"m", pkgName "m", some (asPyList (.vlist []))⟩
    ∧ mkProxyModule "n" (dict_resolver []) = .ok ⟨"n", pkgName "n", none⟩ :=
  ⟨(C6_init_single_path_probe "m" (synthetic_module [] true)).1,
   (C6_init_single_path_probe "m" (synthetic_module [] true)).2.2.1 (.vlist []) rfl rfl,
   (C6_init_single_path_probe "n" (dict_resolver [])).2.1
     (noAttrMsg "n" "__path__") rfl⟩

/-- C7: for every attribute table, the synthetic resolver with
`is_package = true` answers the `__path__` probe with a non-absent
(empty-list) value so the constructed module records search locations,
while `is_package = false` answers `None` so the module records none —
independent of the table's contents. -/
theorem C7_synthetic_package_flag (attrs : List (String × Val)) (m n : String) :
    synthetic_module attrs true m "__path__" = .ok (.vlist [])
    ∧ synthetic_module attrs false m "__path__" = .ok .vnone
    ∧ mkProxyModule n (synthetic_module attrs true) = .ok ⟨n, pkgName n, some []⟩
    ∧ mkProxyModule n (synthetic_module attrs false) = .ok ⟨n, pkgName n, none⟩ :=
  ⟨rfl, rfl, rfl, rfl⟩

/-- C8: after `unregister name`, resolution of `name` misses at the
container level: the name is gone from the registry, the finder
declines (`find_spec` returns `None`), and no previously synthesized
module survives in the module cache. -/
theorem C8_unregister_yields_not_found (s : IPState) (name : String) :
    lookupKey (unregister s name).registry name = none
    ∧ find_spec (unregister s name).registry name = .ok none
    ∧ lookupKey (unregister s name).sysModules name = none := by
  have h1 : lookupKey (unregister s name).registry name = none :=
    lookupKey_eraseKey s.registry name
  refine ⟨h1, ?_, lookupKey_eraseKey s.sysModules name⟩
  simp [find_spec, h1]

/-- C9: `unregister name` deletes the `sys.modules` entry for `name`
even when `name` is absent from the registry (the registry itself is
untouched in that case, and other cached modules are preserved) — so
unregistering a never-registered name can evict a real module from
the module cache. -/
theorem C9_unregister_evicts_unregistered_name (s : IPState) (name : String)
    (h : lookupKey s.registry name = none) :
    (unregister s name).registry = s.registry
    ∧ lookupKey (unregister s name).sysModules name = none
    ∧ (∀ k, k ≠ name →
        lookupKey (unregister s name).sysModules k = lookupKey s.sysModules k) :=
  ⟨eraseKey_of_lookupKey_none s.registry name h,
   lookupKey_eraseKey s.sysModules name,
   fun k hk => lookupKey_eraseKey_ne s.sysModules name k hk⟩

/-- Witness for C9: evicting a cached real module `json` that was never
registered. -/
theorem C9_witness :
    lookupKey (unregister
      ⟨[("m", dict_resolver [])], [("json", .vstr "real json module")], true⟩
      "json").sysModules "json" = none :=
  (C9_unregister_evicts_unregistered_name
    ⟨[("m", dict_resolver [])], [("json", .vstr "real json module")], true⟩
    "json" rfl).2.1

/-- C10: in both the mapping-backed and the synthetic resolver, the
reserved `__dir__` sentinel always answers with the key-listing
closure, even when the table itself holds an entry under the key
`__dir__` — that entry is shadowed and never returned. -/
theorem C10_dir_sentinel_shadows_table (mapping attrs : List (String × Val))
    (is_package : Bool) (m : String) (v w : Val) :
    dict_resolver mapping m "__dir__" = .ok (.vclosure (mapping.map (·.1)))
    ∧ synthetic_module attrs is_package m "__dir__"
        = .ok (.vclosure (attrs.map (·.1)))
    ∧ dict_resolver (("__dir__", v) :: mapping) m "__dir__"
        = .ok (.vclosure ("__dir__" :: mapping.map (·.1)))
    ∧ synthetic_module (("__dir__", w) :: attrs) is_package m "__dir__"
        = .ok (.vclosure ("__dir__" :: attrs.map (·.1))) :=
  ⟨rfl, rfl, rfl, rfl⟩

end ImportProxy
